import Mathlib

/-!
Shallow embedding of `src/pot.ts` (class `PoTokenManager`): the
proof-of-origin token pipeline, its minter cache, the two-path challenge
fetch, and the one-time DOM environment installation.

External collaborators (network fetches, the BotGuard library, the minter
capability, the clock) are modelled as an oracle environment `Env`; every
`Except String` value models a JS promise that either resolves or rejects
with an error message.  The mutable `_minterCache` map is threaded as
explicit state.  Invocation counts of the refresh pipeline, of the
fallback challenge routine and of cache reads are recorded in the call
outcome so that not-invoked / invoked-once properties are statable.
-/

deriving instance DecidableEq for Except

/-- Session context produced by Innertube (`innertube.session.context`);
only the visitor-data field of the context is inspected by the code. -/
structure SessionContext where
  visitorData : String
  deriving DecidableEq, Repr

/-- Interface `ChallengeData` of `pot.ts`: the parsed `bgChallenge` envelope
of the attestation response.  `interpreterUrl` holds the wrapped trusted
resource URL value. -/
structure ChallengeData where
  interpreterUrl : String
  interpreterHash : String
  program : String
  globalName : String
  clientExperimentsStateBlob : String
  deriving DecidableEq, Repr

/-- The `DescrambledChallenge` consumed by `generateTokenMinter`.
`interpreterJavascript` is the wrapped safe-script value; `none` models an
absent field (possible on the fallback path), `some ""` a present but
empty script (both falsy in JS). -/
structure DescrambledChallenge where
  program : String
  globalName : String
  interpreterHash : String
  interpreterJavascript : Option String
  deriving DecidableEq, Repr

/-- The fixed-order tuple `[integrityToken, estimatedTtlSecs,
mintRefreshThreshold, websafeFallbackToken]` destructured from the
GenerateIT response body in `generateTokenMinter`. -/
structure IntegrityResponse where
  integrityToken : Option String
  estimatedTtlSecs : Nat
  mintRefreshThreshold : Option Nat
  websafeFallbackToken : Option String
  deriving DecidableEq, Repr

/-- Type `TokenMinter` of `pot.ts`.  The opaque `BG.WebPoMinter` capability
is represented by an identity `minterId`; its minting behaviour is given
by the oracle field `Env.mint` applied to that identity. -/
structure TokenMinter where
  expiry : Nat
  integrityToken : String
  minterId : Nat
  deriving DecidableEq, Repr

/-- The `_minterCache : Map<string, TokenMinter>` field, as an ordered
association list with `Map.get` / `Map.set` semantics. -/
abbrev Cache := List (String × TokenMinter)

/-- `Map.prototype.get`. -/
def mapGet : Cache → String → Option TokenMinter
  | [], _ => none
  | (k', v) :: rest, k => if k' = k then some v else mapGet rest k

/-- `Map.prototype.set`: replaces the value at an existing key in place,
otherwise appends. -/
def mapSet : Cache → String → TokenMinter → Cache
  | [], k, v => [(k, v)]
  | (k', v') :: rest, k, v =>
      if k' = k then (k, v) :: rest else (k', v') :: mapSet rest k v

/-- Oracle environment for one `generatePoToken` call: the behaviour of
every external collaborator awaited by the code, and the clock readings at
the three points where the code observes the time. -/
structure Env where
  /-- `Innertube.create` / `innertube.session.context` (memoised by
  `getInnertube`, hence consistent within one call). -/
  innertubeCtx : Except String SessionContext
  /-- The `att/get` fetch plus JSON parsing plus the reads of
  `attestation.bgChallenge`: any network error or malformed envelope is an
  error here. -/
  attGet : Except String ChallengeData
  /-- The fetch of the interpreter source referenced by the challenge,
  plus `.text()`. -/
  fetchInterpreterJS : Except String String
  /-- `BG.Challenge.create(bgConfig)`: may reject (error), resolve to a
  challenge, or resolve to nothing (`ok none`). -/
  fallbackChallenge : Except String (Option DescrambledChallenge)
  /-- `new Function(interpreterJavascript)()`: loading and running the
  interpreter source. -/
  runInterpreter : Except String Unit
  /-- `BG.BotGuardClient.create {program, globalName, globalObj}`. -/
  createClient : Except String Unit
  /-- `bgClient.snapshot {webPoSignalOutput}`: the opaque botguard
  response. -/
  snapshot : Except String String
  /-- The `GenerateIT` fetch plus JSON array destructuring. -/
  generateIT : Except String IntegrityResponse
  /-- `BG.WebPoMinter.create(integrityTokenData, webPoSignalOutput)`:
  yields the identity of the fresh minter capability. -/
  createMinter : Except String Nat
  /-- `minter.mintAsWebsafeString input` for the minter with the given
  identity: may reject, or resolve to a string (possibly empty). -/
  mint : Nat → String → Except String String
  /-- Value of `new Date()` at the cache-expiry comparison. -/
  nowCheck : Nat
  /-- Value of `Date.now()` when a freshly built minter's expiry is
  computed. -/
  nowMinterBuild : Nat
  /-- Value of `Date.now()` when the returned result's `expiresAt` is
  computed. -/
  nowResult : Nat

/-- Result interface `YoutubeSessionData` of `pot.ts` (dates as epoch
milliseconds). -/
structure YoutubeSessionData where
  visitorDataToken : String
  visitorData : String
  videoIdToken : Option String
  expiresAt : Nat
  deriving DecidableEq, Repr

/-- Field `TOKEN_TTL_HOURS = 6` of `PoTokenManager`. -/
def TOKEN_TTL_HOURS : Nat := 6

/-- `new Date(Date.now() + this.TOKEN_TTL_HOURS * 60 * 60 * 1000)` at the
result construction. -/
def expiresAtOf (env : Env) : Nat :=
  env.nowResult + TOKEN_TTL_HOURS * 60 * 60 * 1000

/-- Method `generateVisitorData`: reads
`innertube.session.context.client.visitorData`, catching any error to
`null`; a falsy visitor-data value is also turned into `null` by
`visitorData || null`. -/
def generateVisitorData (env : Env) : Option String :=
  match env.innertubeCtx with
  | Except.error _ => none
  | Except.ok ctx => if ctx.visitorData = "" then none else some ctx.visitorData

/-- Lines 215-218 of `generatePoToken`: a falsy `visitorData` argument is
replaced by `generateVisitorData()`, and if that yields nothing the call
throws `"Unable to generate visitor data"`. -/
def resolveVisitorData (env : Env) (visitorData : Option String) :
    Except String String :=
  match visitorData with
  | some s =>
      if s = "" then
        match generateVisitorData env with
        | some v => Except.ok v
        | none => Except.error "Unable to generate visitor data"
      else Except.ok s
  | none =>
      match generateVisitorData env with
      | some v => Except.ok v
      | none => Except.error "Unable to generate visitor data"

/-- The try-block of `getDescrambledChallenge` (the primary attestation
path): resolve a session context if none was passed, issue the `att/get`
request, parse the challenge envelope, and fetch the interpreter source it
references.  Any rejection inside the block is an error result. -/
def primaryPath (env : Env) (ctx : Option SessionContext) :
    Except String DescrambledChallenge :=
  match (match ctx with
         | some c => Except.ok c
         | none => env.innertubeCtx) with
  | Except.error e => Except.error e
  | Except.ok _ =>
      match env.attGet with
      | Except.error e => Except.error e
      | Except.ok cd =>
          match env.fetchInterpreterJS with
          | Except.error e => Except.error e
          | Except.ok js =>
              Except.ok { program := cd.program
                          globalName := cd.globalName
                          interpreterHash := cd.interpreterHash
                          interpreterJavascript := some js }

/-- Method `getDescrambledChallenge`: the primary path, with any failure
caught and recovered by `BG.Challenge.create` (the fallback).  The second
component counts invocations of the fallback routine.  A rejection of the
fallback itself propagates; a fallback that resolves to nothing throws
`"Could not get Botguard challenge"`. -/
def getDescrambledChallenge (env : Env) (ctx : Option SessionContext) :
    Except String DescrambledChallenge × Nat :=
  match primaryPath env ctx with
  | Except.ok dc => (Except.ok dc, 0)
  | Except.error _ =>
      match env.fallbackChallenge with
      | Except.error e => (Except.error e, 1)
      | Except.ok (some dc) => (Except.ok dc, 1)
      | Except.ok none => (Except.error "Could not get Botguard challenge", 1)

/-- Outcome of `generateTokenMinter`: the returned (or thrown) value, the
cache state after the call, and the number of fallback-challenge
invocations during it. -/
structure MinterOutcome where
  result : Except String TokenMinter
  cache : Cache
  fallbackRuns : Nat
  deriving DecidableEq, Repr

/-- Lines 144-190 of `generateTokenMinter`, after the challenge fetch:
load the interpreter (throwing `"Could not load VM"` when the script
field is falsy), create a BotGuard client, take a snapshot, exchange it
at `GenerateIT`, reject an empty integrity token, build the minter with
expiry `Date.now() + estimatedTtlSecs * 1000`, and only then store it in
the cache under key `"default"`.  `challenge` is the fetch outcome and
`fb` its fallback-invocation count. -/
def buildMinterFromChallenge (env : Env) (cache : Cache)
    (challenge : Except String DescrambledChallenge) (fb : Nat) : MinterOutcome :=
  match challenge with
  | Except.error e => ⟨Except.error e, cache, fb⟩
  | Except.ok dc =>
      match dc.interpreterJavascript with
      | none => ⟨Except.error "Could not load VM", cache, fb⟩
      | some js =>
          if js = "" then ⟨Except.error "Could not load VM", cache, fb⟩
          else
            match env.runInterpreter with
            | Except.error e => ⟨Except.error e, cache, fb⟩
            | Except.ok _ =>
                match env.createClient with
                | Except.error e => ⟨Except.error e, cache, fb⟩
                | Except.ok _ =>
                    match env.snapshot with
                    | Except.error e => ⟨Except.error e, cache, fb⟩
                    | Except.ok _ =>
                        match env.generateIT with
                        | Except.error e => ⟨Except.error e, cache, fb⟩
                        | Except.ok r =>
                            match r.integrityToken with
                            | none =>
                                ⟨Except.error "Unexpected empty integrity token",
                                 cache, fb⟩
                            | some tok =>
                                if tok = "" then
                                  ⟨Except.error "Unexpected empty integrity token",
                                   cache, fb⟩
                                else
                                  match env.createMinter with
                                  | Except.error e => ⟨Except.error e, cache, fb⟩
                                  | Except.ok mid =>
                                      ⟨Except.ok
                                         { expiry := env.nowMinterBuild +
                                             r.estimatedTtlSecs * 1000
                                           integrityToken := tok
                                           minterId := mid },
                                       mapSet cache "default"
                                         { expiry := env.nowMinterBuild +
                                             r.estimatedTtlSecs * 1000
                                           integrityToken := tok
                                           minterId := mid }, fb⟩

/-- Method `generateTokenMinter`: fetch a descrambled challenge (lines
142), then run the rest of the refresh pipeline on its outcome. -/
def generateTokenMinter (env : Env) (cache : Cache)
    (ctx : Option SessionContext) : MinterOutcome :=
  buildMinterFromChallenge env cache
    (getDescrambledChallenge env ctx).1 (getDescrambledChallenge env ctx).2

/-- Outcome of one `generatePoToken` call: the returned (or thrown) value,
the cache state after the call, and instrumentation counters — how often
the cache map was read, how often the refresh pipeline
(`generateTokenMinter`) was entered, and how often the fallback challenge
routine ran. -/
structure GenOutcome where
  result : Except String YoutubeSessionData
  cache : Cache
  cacheReads : Nat
  pipelineRuns : Nat
  fallbackRuns : Nat
  deriving DecidableEq, Repr

/-- Lines 233-246 of `generatePoToken`: mint the primary token against the
chosen minter (throwing `"Unexpected empty POT"` on a falsy result), mint
the secondary token when a truthy `videoId` was supplied (its result is
not checked), and build the returned session data. -/
def mintPhase (env : Env) (visitorData : String) (videoId : Option String)
    (tm : TokenMinter) (cache : Cache) (pruns fruns : Nat) : GenOutcome :=
  match env.mint tm.minterId visitorData with
  | Except.error e => ⟨Except.error e, cache, 1, pruns, fruns⟩
  | Except.ok visitorDataToken =>
      if visitorDataToken = "" then
        ⟨Except.error "Unexpected empty POT", cache, 1, pruns, fruns⟩
      else
        match videoId with
        | none =>
            ⟨Except.ok { visitorDataToken, visitorData,
                         videoIdToken := none, expiresAt := expiresAtOf env },
             cache, 1, pruns, fruns⟩
        | some vid =>
            if vid = "" then
              ⟨Except.ok { visitorDataToken, visitorData,
                           videoIdToken := none, expiresAt := expiresAtOf env },
               cache, 1, pruns, fruns⟩
            else
              match env.mint tm.minterId vid with
              | Except.error e => ⟨Except.error e, cache, 1, pruns, fruns⟩
              | Except.ok vtok =>
                  ⟨Except.ok { visitorDataToken, visitorData,
                               videoIdToken := some vtok,
                               expiresAt := expiresAtOf env },
                   cache, 1, pruns, fruns⟩

/-- Line 230 of `generatePoToken` (the refresh branch with the session
context already resolved): run `generateTokenMinter`, propagate its
failure, or mint against the fresh minter it returns. -/
def refreshWithCtx (env : Env) (visitorData : String) (videoId : Option String)
    (cache : Cache) (ctx : SessionContext) : GenOutcome :=
  match (generateTokenMinter env cache (some ctx)).result with
  | Except.error e =>
      ⟨Except.error e, (generateTokenMinter env cache (some ctx)).cache,
       1, 1, (generateTokenMinter env cache (some ctx)).fallbackRuns⟩
  | Except.ok tm =>
      mintPhase env visitorData videoId tm
        (generateTokenMinter env cache (some ctx)).cache
        1 (generateTokenMinter env cache (some ctx)).fallbackRuns

/-- Line 229 of `generatePoToken`: a rejection of `getInnertube`
propagates and the pipeline is never entered; otherwise the refresh runs
with the resolved session context. -/
def refreshPhase (env : Env) (visitorData : String) (videoId : Option String)
    (cache : Cache) : GenOutcome :=
  match env.innertubeCtx with
  | Except.error e => ⟨Except.error e, cache, 1, 0, 0⟩
  | Except.ok ctx => refreshWithCtx env visitorData videoId cache ctx

/-- Method `generatePoToken`: resolve the visitor-data identifier, consult
the cache under key `"default"`, refresh when the entry is missing or
`new Date() >= expiry`, and mint the requested tokens. -/
def generatePoToken (env : Env) (cache : Cache)
    (visitorData videoId : Option String) : GenOutcome :=
  match resolveVisitorData env visitorData with
  | Except.error e => ⟨Except.error e, cache, 0, 0, 0⟩
  | Except.ok vd =>
      match mapGet cache "default" with
      | none => refreshPhase env vd videoId cache
      | some tm =>
          if tm.expiry ≤ env.nowCheck then refreshPhase env vd videoId cache
          else mintPhase env vd videoId tm cache 0 0

/-- Process-wide state guarded by the static field `hasDom` of
`PoTokenManager`: whether the DOM has been installed, and the identity of
the JSDOM whose globals were assigned onto `globalThis` (none before any
installation). -/
structure ProcessState where
  hasDom : Bool
  domGlobals : Option Nat
  deriving DecidableEq, Repr

/-- Process state before the first `PoTokenManager` construction. -/
def initialProcessState : ProcessState :=
  { hasDom := false, domGlobals := none }

/-- The `PoTokenManager` constructor: when `hasDom` is still false it
builds a fresh JSDOM (identity `freshDom`), assigns its globals onto
`globalThis` and sets `hasDom`; otherwise it does nothing. -/
def constructPoTokenManager (s : ProcessState) (freshDom : Nat) : ProcessState :=
  if s.hasDom then s
  else { hasDom := true, domGlobals := some freshDom }

/-- A sequence of `PoTokenManager` constructions, each with the identity
of the JSDOM it would build. -/
def constructMany (s : ProcessState) : List Nat → ProcessState
  | [] => s
  | d :: ds => constructMany (constructPoTokenManager s d) ds

/-- Progress of one concurrent `generatePoToken` caller through the await
points of the refresh path: `start` is about to run the synchronous
prefix ending at the cache check of line 228 (the first suspension, at
`await this.getInnertube()`, follows it); `inPipeline` has entered the
refresh and has not yet executed the cache write of line 189; `finished`
is past the cache write. -/
inductive CallerPhase where
  | start
  | inPipeline
  | finished
  deriving DecidableEq, Repr

/-- Shared state of several interleaved `generatePoToken` callers: the
`"default"` cache entry, each caller's phase, and how many refresh
pipelines have been entered. -/
structure ConcState where
  cache : Option TokenMinter
  phases : List CallerPhase
  pipelineRuns : Nat
  deriving DecidableEq, Repr

/-- One scheduler step of caller `i`: from `start`, run the synchronous
segment of lines 227-228 — on a live entry skip the refresh and finish,
otherwise enter the refresh (suspending at its awaits, so other callers
may run before it completes); from `inPipeline`, complete the refresh and
execute the cache write of line 189. -/
def stepCaller (now : Nat) (built : TokenMinter) (s : ConcState) (i : Nat) :
    ConcState :=
  match s.phases.get? i with
  | some CallerPhase.start =>
      (match s.cache with
       | some tm =>
           if tm.expiry ≤ now then
             { s with phases := s.phases.set i CallerPhase.inPipeline
                      pipelineRuns := s.pipelineRuns + 1 }
           else { s with phases := s.phases.set i CallerPhase.finished }
       | none =>
           { s with phases := s.phases.set i CallerPhase.inPipeline
                    pipelineRuns := s.pipelineRuns + 1 })
  | some CallerPhase.inPipeline =>
      { s with cache := some built
               phases := s.phases.set i CallerPhase.finished }
  | _ => s

/-- Run a schedule of caller steps. -/
def runSchedule (now : Nat) (built : TokenMinter) :
    ConcState → List Nat → ConcState
  | s, [] => s
  | s, i :: rest => runSchedule now built (stepCaller now built s i) rest

/-- A healthy session context used in concrete instances. -/
def ctxW : SessionContext := { visitorData := "session-vd" }

/-- A healthy challenge envelope used in concrete instances. -/
def challengeW : ChallengeData :=
  { interpreterUrl := "//example.test/interp.js"
    interpreterHash := "hash0"
    program := "prog0"
    globalName := "g0"
    clientExperimentsStateBlob := "blob0" }

/-- A healthy GenerateIT response used in concrete instances. -/
def integrityRespW : IntegrityResponse :=
  { integrityToken := some "itok"
    estimatedTtlSecs := 3600
    mintRefreshThreshold := some 100
    websafeFallbackToken := some "fbtok" }

/-- A fully healthy collaborator environment: every external call
resolves, every mint yields a non-empty token. -/
def envW : Env :=
  { innertubeCtx := Except.ok ctxW
    attGet := Except.ok challengeW
    fetchInterpreterJS := Except.ok "interp-src"
    fallbackChallenge := Except.ok none
    runInterpreter := Except.ok ()
    createClient := Except.ok ()
    snapshot := Except.ok "bg-response"
    generateIT := Except.ok integrityRespW
    createMinter := Except.ok 7
    mint := fun _ input => Except.ok ("pot-" ++ input)
    nowCheck := 5000
    nowMinterBuild := 5000
    nowResult := 5000 }

/-- A live cached minter: its expiry lies after `envW.nowCheck`. -/
def tmLive : TokenMinter :=
  { expiry := 10000, integrityToken := "itok", minterId := 7 }

/-- A cache holding `tmLive` under the key `"default"`. -/
def cacheLive : Cache := [("default", tmLive)]

/-- The environment `envW` except that every mint resolves to the empty
string (a poisoned minter capability). -/
def envEmptyMint : Env := { envW with mint := fun _ _ => Except.ok "" }

/-- The environment `envW` except that minting the visitor identifier
succeeds while minting anything else rejects. -/
def envSecondaryMintFails : Env :=
  { envW with mint := fun _ input =>
      if input = "vd-1" then Except.ok "primary-token"
      else Except.error "secondary mint rejected" }

/-- A fallback-produced challenge used in concrete instances. -/
def challengeFB : DescrambledChallenge :=
  { program := "p1", globalName := "g1", interpreterHash := "h1"
    interpreterJavascript := some "fb-src" }

/-- The environment `envW` except that the primary attestation fetch
rejects and the fallback produces `challengeFB`. -/
def envFallbackOk : Env :=
  { envW with attGet := Except.error "att get failed"
              fallbackChallenge := Except.ok (some challengeFB) }

/-- A GenerateIT response that carries no integrity token. -/
def integrityRespEmpty : IntegrityResponse :=
  { integrityToken := none, estimatedTtlSecs := 0,
    mintRefreshThreshold := none, websafeFallbackToken := none }

/-- The environment `envW` except that the GenerateIT response carries no
integrity token. -/
def envNoToken : Env :=
  { envW with generateIT := Except.ok integrityRespEmpty }

/-- The environment `envW` except that the primary attestation fetch
rejects and the fallback resolves to nothing. -/
def envBothPathsFail : Env := { envW with attGet := Except.error "att get failed" }

/-- The environment `envW` except that `Innertube.create` rejects, so no
visitor data can be generated. -/
def envNoInnertube : Env := { envW with innertubeCtx := Except.error "create failed" }

/-- Reading a key immediately after setting it yields the set value. -/
theorem mapGet_mapSet_same (c : Cache) (k : String) (v : TokenMinter) :
    mapGet (mapSet c k v) k = some v := by
  induction c with
  | nil => simp [mapGet, mapSet]
  | cons hd tl ih =>
      obtain ⟨k', v'⟩ := hd
      by_cases h : k' = k
      · simp [mapGet, mapSet, h]
      · simp [mapGet, mapSet, h, ih]

/-- The minting phase never touches the cache, reads it exactly once and
propagates the pipeline and fallback counters it was handed. -/
theorem mintPhase_shape (env : Env) (v : String) (vid : Option String)
    (tm : TokenMinter) (cache : Cache) (p f : Nat) :
    ∃ res, mintPhase env v vid tm cache p f = ⟨res, cache, 1, p, f⟩ := by
  unfold mintPhase
  repeat' split
  all_goals exact ⟨_, rfl⟩

/-- Shape of the refresh pipeline after the challenge fetch: it either
fails leaving the cache untouched, or succeeds and stores exactly the
minter it returns under key `"default"`. -/
theorem buildMinter_shape (env : Env) (cache : Cache)
    (challenge : Except String DescrambledChallenge) (fb : Nat) :
    (∃ e, buildMinterFromChallenge env cache challenge fb =
        ⟨Except.error e, cache, fb⟩) ∨
    (∃ tm, buildMinterFromChallenge env cache challenge fb =
        ⟨Except.ok tm, mapSet cache "default" tm, fb⟩) := by
  unfold buildMinterFromChallenge
  repeat' split
  all_goals first
    | exact Or.inl ⟨_, rfl⟩
    | exact Or.inr ⟨_, rfl⟩

/-- Shape of `generateTokenMinter`, inherited from `buildMinter_shape`. -/
theorem generateTokenMinter_shape (env : Env) (cache : Cache)
    (ctx : Option SessionContext) :
    (∃ e, generateTokenMinter env cache ctx =
        ⟨Except.error e, cache, (getDescrambledChallenge env ctx).2⟩) ∨
    (∃ tm, generateTokenMinter env cache ctx =
        ⟨Except.ok tm, mapSet cache "default" tm,
         (getDescrambledChallenge env ctx).2⟩) := by
  unfold generateTokenMinter
  exact buildMinter_shape env cache
    (getDescrambledChallenge env ctx).1 (getDescrambledChallenge env ctx).2

/-- A successful refresh stores exactly the returned minter. -/
theorem generateTokenMinter_ok_cache (env : Env) (cache : Cache)
    (ctx : Option SessionContext) (tm : TokenMinter)
    (h : (generateTokenMinter env cache ctx).result = Except.ok tm) :
    (generateTokenMinter env cache ctx).cache = mapSet cache "default" tm := by
  rcases generateTokenMinter_shape env cache ctx with ⟨e, heq⟩ | ⟨tm', heq⟩
  · rw [heq] at h; simp at h
  · rw [heq] at h ⊢
    simp at h
    rw [h]

/-- The fallback counter of `generateTokenMinter` is the one of its
challenge fetch. -/
theorem generateTokenMinter_fb (env : Env) (cache : Cache)
    (ctx : Option SessionContext) :
    (generateTokenMinter env cache ctx).fallbackRuns =
      (getDescrambledChallenge env ctx).2 := by
  rcases generateTokenMinter_shape env cache ctx with ⟨e, heq⟩ | ⟨tm, heq⟩ <;>
    rw [heq]

/-- Claim C10: whenever the refresh pipeline fails at any stage before
producing a validated integrity token (challenge fetch failure,
interpreter load failure, or empty integrity token — indeed at any stage
at all), the minter cache is left exactly as it was before the refresh
began: no entry is stored or replaced on a failed refresh. -/
theorem failed_refresh_preserves_cache (env : Env) (cache : Cache)
    (ctx : Option SessionContext) (e : String)
    (h : (generateTokenMinter env cache ctx).result = Except.error e) :
    (generateTokenMinter env cache ctx).cache = cache := by
  rcases generateTokenMinter_shape env cache ctx with ⟨e', heq⟩ | ⟨tm, heq⟩
  · rw [heq]
  · rw [heq] at h; simp at h

/-- Witness for C10: with a rejecting attestation fetch and an exhausted
fallback, the refresh fails and leaves an empty cache empty. -/
theorem failed_refresh_preserves_cache_witness :
    (generateTokenMinter envBothPathsFail [] (some ctxW)).result =
        Except.error "Could not get Botguard challenge" ∧
    (generateTokenMinter envBothPathsFail [] (some ctxW)).cache = [] :=
  ⟨by decide,
   failed_refresh_preserves_cache envBothPathsFail [] (some ctxW)
     "Could not get Botguard challenge" (by decide)⟩

/-- Claim C5: for every integrity-exchange response, if the token field of
the fixed-order response tuple is empty or absent, the exchange fails with
the `"Unexpected empty integrity token"` error rather than producing and
caching a minter built on a null token. -/
theorem empty_integrity_token_rejected (env : Env) (cache : Cache)
    (ctx : Option SessionContext) (dc : DescrambledChallenge)
    (js : String) (r : IntegrityResponse)
    (hdc : (getDescrambledChallenge env ctx).1 = Except.ok dc)
    (hjs : dc.interpreterJavascript = some js) (hjs2 : js ≠ "")
    (hri : env.runInterpreter = Except.ok ())
    (hcc : env.createClient = Except.ok ())
    (hsnap : ∃ b, env.snapshot = Except.ok b)
    (hit : env.generateIT = Except.ok r)
    (htok : r.integrityToken = none ∨ r.integrityToken = some "") :
    (generateTokenMinter env cache ctx).result =
        Except.error "Unexpected empty integrity token" ∧
    (generateTokenMinter env cache ctx).cache = cache := by
  obtain ⟨b, hb⟩ := hsnap
  unfold generateTokenMinter buildMinterFromChallenge
  rw [hdc]
  rcases htok with h | h <;>
    simp [hjs, hjs2, hri, hcc, hb, hit, h]

/-- Witness for C5: a concrete pipeline whose GenerateIT response has no
token field fails with the empty-integrity-token error and stores
nothing. -/
theorem empty_integrity_token_rejected_witness :
    (getDescrambledChallenge envNoToken (some ctxW)).1 =
        Except.ok { program := challengeW.program
                    globalName := challengeW.globalName
                    interpreterHash := challengeW.interpreterHash
                    interpreterJavascript := some "interp-src" } ∧
    (generateTokenMinter envNoToken [] (some ctxW)).result =
        Except.error "Unexpected empty integrity token" ∧
    (generateTokenMinter envNoToken [] (some ctxW)).cache = [] :=
  ⟨by decide,
   empty_integrity_token_rejected envNoToken [] (some ctxW)
     { program := challengeW.program
       globalName := challengeW.globalName
       interpreterHash := challengeW.interpreterHash
       interpreterJavascript := some "interp-src" }
     "interp-src" integrityRespEmpty
     (by decide) (by decide) (by decide) (by decide) (by decide)
     ⟨"bg-response", by decide⟩ (by decide) (Or.inl (by decide))⟩

/-- Claim C7: a call with no usable identifier whose session-context
provider yields nothing fails with the `"Unable to generate visitor
data"` error, and the minter cache is neither read nor modified, nor is
the refresh pipeline entered. -/
theorem missing_identifier_fails_before_cache (env : Env) (cache : Cache)
    (vd vid : Option String)
    (hvd : vd = none ∨ vd = some "")
    (hprov : generateVisitorData env = none) :
    (generatePoToken env cache vd vid).result =
        Except.error "Unable to generate visitor data" ∧
    (generatePoToken env cache vd vid).cache = cache ∧
    (generatePoToken env cache vd vid).cacheReads = 0 ∧
    (generatePoToken env cache vd vid).pipelineRuns = 0 := by
  have hres : resolveVisitorData env vd =
      Except.error "Unable to generate visitor data" := by
    rcases hvd with h | h <;> subst h <;> simp [resolveVisitorData, hprov]
  have heq : generatePoToken env cache vd vid =
      ⟨Except.error "Unable to generate visitor data", cache, 0, 0, 0⟩ := by
    unfold generatePoToken
    rw [hres]
  rw [heq]
  exact ⟨rfl, rfl, rfl, rfl⟩

/-- Witness for C7: with a rejecting Innertube session and no identifier
argument, the call fails before touching the cache. -/
theorem missing_identifier_fails_before_cache_witness :
    generateVisitorData envNoInnertube = none ∧
    (generatePoToken envNoInnertube cacheLive none (some "video-abc")).result =
        Except.error "Unable to generate visitor data" ∧
    (generatePoToken envNoInnertube cacheLive none (some "video-abc")).cache =
        cacheLive ∧
    (generatePoToken envNoInnertube cacheLive none (some "video-abc")).cacheReads = 0 :=
  ⟨by decide,
   (missing_identifier_fails_before_cache envNoInnertube cacheLive none
      (some "video-abc") (Or.inl rfl) (by decide)).1,
   (missing_identifier_fails_before_cache envNoInnertube cacheLive none
      (some "video-abc") (Or.inl rfl) (by decide)).2.1,
   (missing_identifier_fails_before_cache envNoInnertube cacheLive none
      (some "video-abc") (Or.inl rfl) (by decide)).2.2.1⟩

/-- A successful minting phase returns the identifier it was given
unchanged, a non-empty primary token, and the fixed service-level
expiry. -/
theorem mintPhase_ok_fields (env : Env) (v : String) (vid : Option String)
    (tm : TokenMinter) (cache : Cache) (p f : Nat) (data : YoutubeSessionData)
    (h : (mintPhase env v vid tm cache p f).result = Except.ok data) :
    data.visitorData = v ∧ data.visitorDataToken ≠ "" ∧
    data.expiresAt = expiresAtOf env := by
  unfold mintPhase at h
  repeat' split at h
  all_goals simp_all
  all_goals (cases h; simp_all)

/-- A successful refresh branch returns the identifier unchanged, a
non-empty primary token, and the fixed service-level expiry. -/
theorem refreshPhase_ok_fields (env : Env) (v : String) (vid : Option String)
    (cache : Cache) (data : YoutubeSessionData)
    (h : (refreshPhase env v vid cache).result = Except.ok data) :
    data.visitorData = v ∧ data.visitorDataToken ≠ "" ∧
    data.expiresAt = expiresAtOf env := by
  unfold refreshPhase at h
  split at h
  · simp at h
  · unfold refreshWithCtx at h
    split at h
    · simp at h
    · exact mintPhase_ok_fields _ _ _ _ _ _ _ _ h

/-- Claim C6: every successful `generatePoToken` call with a supplied
identifier returns that identifier unchanged, a non-empty primary token,
and an `expiresAt` equal to the time of the call plus the fixed
service-level TTL of `TOKEN_TTL_HOURS` hours, independent of the
integrity token's own TTL. -/
theorem generate_result_fields (env : Env) (cache : Cache) (s : String)
    (vid : Option String) (data : YoutubeSessionData)
    (hs : s ≠ "")
    (h : (generatePoToken env cache (some s) vid).result = Except.ok data) :
    data.visitorData = s ∧ data.visitorDataToken ≠ "" ∧
    data.expiresAt = env.nowResult + TOKEN_TTL_HOURS * 60 * 60 * 1000 := by
  have hres : resolveVisitorData env (some s) = Except.ok s := by
    simp [resolveVisitorData, hs]
  unfold generatePoToken at h
  rw [hres] at h
  simp only [] at h
  split at h
  · exact refreshPhase_ok_fields _ _ _ _ _ h
  · split at h
    · exact refreshPhase_ok_fields _ _ _ _ _ h
    · exact mintPhase_ok_fields _ _ _ _ _ _ _ _ h

/-- The concrete result of a healthy `generatePoToken` call in `envW`. -/
def dataW : YoutubeSessionData :=
  { visitorDataToken := "pot-visitor-123", visitorData := "visitor-123",
    videoIdToken := none, expiresAt := 21605000 }

/-- Witness for C6: the healthy environment produces exactly `dataW`, and
the claimed field properties hold of it. -/
theorem generate_result_fields_witness :
    "visitor-123" ≠ "" ∧
    (generatePoToken envW [] (some "visitor-123") none).result =
        Except.ok dataW ∧
    (dataW.visitorData = "visitor-123" ∧ dataW.visitorDataToken ≠ "" ∧
     dataW.expiresAt = envW.nowResult + TOKEN_TTL_HOURS * 60 * 60 * 1000) :=
  ⟨by decide, by decide,
   generate_result_fields envW [] "visitor-123" none dataW
     (by decide) (by decide)⟩

/-- With a resolvable session context the refresh branch is the
context-resolved refresh. -/
theorem refreshPhase_ok_ctx (env : Env) (v : String) (vid : Option String)
    (cache : Cache) (ctx : SessionContext)
    (hctx : env.innertubeCtx = Except.ok ctx) :
    refreshPhase env v vid cache = refreshWithCtx env v vid cache ctx := by
  unfold refreshPhase
  rw [hctx]

/-- The refresh branch enters the pipeline exactly once, and when the
pipeline succeeds its fresh minter ends up stored under `"default"`. -/
theorem refreshWithCtx_spec (env : Env) (v : String) (vid : Option String)
    (cache : Cache) (ctx : SessionContext) :
    (refreshWithCtx env v vid cache ctx).pipelineRuns = 1 ∧
    ∀ tm, (generateTokenMinter env cache (some ctx)).result = Except.ok tm →
      mapGet (refreshWithCtx env v vid cache ctx).cache "default" = some tm := by
  unfold refreshWithCtx
  split
  next e heq =>
    refine ⟨rfl, ?_⟩
    intro tm h'
    rw [heq] at h'
    simp at h'
  next tm heq =>
    obtain ⟨res, hres⟩ := mintPhase_shape env v vid tm
      (generateTokenMinter env cache (some ctx)).cache 1
      (generateTokenMinter env cache (some ctx)).fallbackRuns
    rw [hres]
    refine ⟨rfl, ?_⟩
    intro tm' h'
    rw [heq] at h'
    simp at h'
    subst h'
    rw [generateTokenMinter_ok_cache env cache (some ctx) tm heq]
    exact mapGet_mapSet_same cache "default" tm

/-- Claim C1: for every cache state and every `generatePoToken` call with
a resolvable identifier and session context: if a minter is stored under
the key with expiry T and `new Date()` at the check reads t < T, the
refresh pipeline is not invoked and the stored minter is reused by the
minting phase with the cache left unchanged; if no minter is stored or
t ≥ T, the refresh pipeline is invoked (exactly once), and when it
succeeds its fresh minter replaces the stored entry. -/
theorem generatePoToken_cache_policy (env : Env) (cache : Cache)
    (vd vid : Option String) (s : String) (ctx : SessionContext)
    (hs : resolveVisitorData env vd = Except.ok s)
    (hctx : env.innertubeCtx = Except.ok ctx) :
    (∀ tm, mapGet cache "default" = some tm → env.nowCheck < tm.expiry →
       generatePoToken env cache vd vid = mintPhase env s vid tm cache 0 0 ∧
       (generatePoToken env cache vd vid).pipelineRuns = 0 ∧
       (generatePoToken env cache vd vid).cache = cache) ∧
    ((mapGet cache "default" = none ∨
      ∃ tm, mapGet cache "default" = some tm ∧ tm.expiry ≤ env.nowCheck) →
     (generatePoToken env cache vd vid).pipelineRuns = 1 ∧
     ∀ tm', (generateTokenMinter env cache (some ctx)).result = Except.ok tm' →
       mapGet (generatePoToken env cache vd vid).cache "default" = some tm') := by
  constructor
  · intro tm htm hlt
    have heq : generatePoToken env cache vd vid =
        mintPhase env s vid tm cache 0 0 := by
      unfold generatePoToken
      rw [hs, htm]
      show (if tm.expiry ≤ env.nowCheck then refreshPhase env s vid cache
            else mintPhase env s vid tm cache 0 0) =
          mintPhase env s vid tm cache 0 0
      rw [if_neg (Nat.not_le.mpr hlt)]
    obtain ⟨res, hres⟩ := mintPhase_shape env s vid tm cache 0 0
    exact ⟨heq, by rw [heq, hres], by rw [heq, hres]⟩
  · intro hcase
    have heq : generatePoToken env cache vd vid =
        refreshWithCtx env s vid cache ctx := by
      unfold generatePoToken
      rcases hcase with h | ⟨tm, htm, hexp⟩
      · rw [hs, h]
        exact refreshPhase_ok_ctx env s vid cache ctx hctx
      · rw [hs, htm]
        show (if tm.expiry ≤ env.nowCheck then refreshPhase env s vid cache
              else mintPhase env s vid tm cache 0 0) =
            refreshWithCtx env s vid cache ctx
        rw [if_pos hexp]
        exact refreshPhase_ok_ctx env s vid cache ctx hctx
    rw [heq]
    exact refreshWithCtx_spec env s vid cache ctx

/-- Witness for C1 (live-entry half): with a live cached minter, the call
reuses it, does not enter the pipeline and leaves the cache unchanged. -/
theorem generatePoToken_cache_policy_witness :
    resolveVisitorData envW (some "visitor-123") = Except.ok "visitor-123" ∧
    envW.innertubeCtx = Except.ok ctxW ∧
    mapGet cacheLive "default" = some tmLive ∧
    envW.nowCheck < tmLive.expiry ∧
    (generatePoToken envW cacheLive (some "visitor-123") none).pipelineRuns = 0 ∧
    (generatePoToken envW cacheLive (some "visitor-123") none).cache = cacheLive :=
  ⟨by decide, by decide, by decide, by decide,
   ((generatePoToken_cache_policy envW cacheLive (some "visitor-123") none
       "visitor-123" ctxW (by decide) (by decide)).1 tmLive
       (by decide) (by decide)).2.1,
   ((generatePoToken_cache_policy envW cacheLive (some "visitor-123") none
       "visitor-123" ctxW (by decide) (by decide)).1 tmLive
       (by decide) (by decide)).2.2⟩

/-- Counterexample to C3 as stated: when minting the primary token against
the live cached minter returns an empty string, the call fails with
`"Unexpected empty POT"`, but the cache entry under `"default"` is not
evicted — it still holds the same poisoned minter afterwards. -/
theorem empty_mint_no_eviction_cex :
    (generatePoToken envEmptyMint cacheLive (some "vd") none).result =
        Except.error "Unexpected empty POT" ∧
    mapGet (generatePoToken envEmptyMint cacheLive (some "vd") none).cache
        "default" = some tmLive := by
  decide

/-- Claim C3 (amended): whenever minting the primary token against a live
cached minter returns an empty result, `generatePoToken` fails with the
`"Unexpected empty POT"` error, but the cache entry for the key is not
evicted: the cache is left exactly as it was, so the next call reuses the
same stored minter until its expiry. -/
theorem empty_mint_error_without_eviction (env : Env) (cache : Cache)
    (s : String) (vid : Option String) (tm : TokenMinter)
    (hcache : mapGet cache "default" = some tm)
    (hlive : env.nowCheck < tm.expiry)
    (hs : s ≠ "")
    (hmint : env.mint tm.minterId s = Except.ok "") :
    (generatePoToken env cache (some s) vid).result =
        Except.error "Unexpected empty POT" ∧
    (generatePoToken env cache (some s) vid).cache = cache := by
  have hres : resolveVisitorData env (some s) = Except.ok s := by
    simp [resolveVisitorData, hs]
  have heq : generatePoToken env cache (some s) vid =
      mintPhase env s vid tm cache 0 0 := by
    unfold generatePoToken
    rw [hres, hcache]
    show (if tm.expiry ≤ env.nowCheck then refreshPhase env s vid cache
          else mintPhase env s vid tm cache 0 0) =
        mintPhase env s vid tm cache 0 0
    rw [if_neg (Nat.not_le.mpr hlive)]
  rw [heq]
  unfold mintPhase
  simp [hmint]

/-- Witness for the amended C3: a concrete poisoned-minter environment in
which the error is raised and the cache survives unchanged. -/
theorem empty_mint_error_without_eviction_witness :
    mapGet cacheLive "default" = some tmLive ∧
    envEmptyMint.nowCheck < tmLive.expiry ∧
    envEmptyMint.mint tmLive.minterId "vd" = Except.ok "" ∧
    (generatePoToken envEmptyMint cacheLive (some "vd") none).cache =
        cacheLive :=
  ⟨by decide, by decide, by decide,
   (empty_mint_error_without_eviction envEmptyMint cacheLive "vd" none tmLive
      (by decide) (by decide) (by decide) (by decide)).2⟩

/-- Counterexample to C8 as stated: with a live minter whose secondary
mint rejects, the whole `generatePoToken` call fails with that rejection
— the failure is not surfaced as absence of the secondary-token field. -/
theorem secondary_mint_failure_cex :
    (generatePoToken envSecondaryMintFails cacheLive (some "vd-1")
        (some "vid-1")).result = Except.error "secondary mint rejected" := by
  decide

/-- Claim C8 (amended): when the secondary mint resolves — even to the
empty string — its value is returned in the secondary field and the
already-minted primary token stands; but when the secondary mint rejects,
the rejection propagates and fails the whole call (it is not converted to
absence of the field). -/
theorem secondary_mint_policy (env : Env) (cache : Cache) (s vid : String)
    (tm : TokenMinter) (vtok : String)
    (hcache : mapGet cache "default" = some tm)
    (hlive : env.nowCheck < tm.expiry)
    (hs : s ≠ "") (hvid : vid ≠ "")
    (hmint : env.mint tm.minterId s = Except.ok vtok) (hvtok : vtok ≠ "") :
    (∀ v, env.mint tm.minterId vid = Except.ok v →
       (generatePoToken env cache (some s) (some vid)).result =
         Except.ok { visitorDataToken := vtok, visitorData := s,
                     videoIdToken := some v, expiresAt := expiresAtOf env }) ∧
    (∀ e, env.mint tm.minterId vid = Except.error e →
       (generatePoToken env cache (some s) (some vid)).result =
         Except.error e) := by
  have hres : resolveVisitorData env (some s) = Except.ok s := by
    simp [resolveVisitorData, hs]
  have heq : generatePoToken env cache (some s) (some vid) =
      mintPhase env s (some vid) tm cache 0 0 := by
    unfold generatePoToken
    rw [hres, hcache]
    show (if tm.expiry ≤ env.nowCheck then refreshPhase env s (some vid) cache
          else mintPhase env s (some vid) tm cache 0 0) =
        mintPhase env s (some vid) tm cache 0 0
    rw [if_neg (Nat.not_le.mpr hlive)]
  rw [heq]
  constructor
  · intro v hv
    unfold mintPhase
    simp [hmint, hvtok, hvid, hv]
  · intro e he
    unfold mintPhase
    simp [hmint, hvtok, hvid, he]

/-- Witness for the amended C8: a healthy environment yields both tokens,
the secondary field carrying the secondary mint's value. -/
theorem secondary_mint_policy_witness :
    mapGet cacheLive "default" = some tmLive ∧
    envW.mint tmLive.minterId "video-abc" = Except.ok "pot-video-abc" ∧
    (generatePoToken envW cacheLive (some "visitor-123")
        (some "video-abc")).result =
      Except.ok { visitorDataToken := "pot-visitor-123",
                  visitorData := "visitor-123",
                  videoIdToken := some "pot-video-abc",
                  expiresAt := expiresAtOf envW } :=
  ⟨by decide, by decide,
   (secondary_mint_policy envW cacheLive "visitor-123" "video-abc" tmLive
      "pot-visitor-123" (by decide) (by decide) (by decide) (by decide)
      (by decide) (by decide)).1 "pot-video-abc" (by decide)⟩

/-- Claim C2 exhibit: two concurrent `generatePoToken` callers on an
empty cache, interleaved so that both execute the synchronous cache check
of lines 227-228 before either refresh reaches the cache write of line
189 (schedule: caller 0 checks, caller 1 checks, caller 0 completes,
caller 1 completes), enter two refresh pipelines and both run to
completion — the code has no single-flight guard, so the claimed
exactly-one in-flight refresh is violated. -/
theorem duplicate_refresh_under_interleaving :
    (runSchedule 0 tmLive
       { cache := none
         phases := [CallerPhase.start, CallerPhase.start]
         pipelineRuns := 0 } [0, 1, 0, 1]).pipelineRuns = 2 ∧
    (runSchedule 0 tmLive
       { cache := none
         phases := [CallerPhase.start, CallerPhase.start]
         pipelineRuns := 0 } [0, 1, 0, 1]).phases =
      [CallerPhase.finished, CallerPhase.finished] := by
  decide

/-- Claim C9: the browser-like host environment is constructed at most
once per process: in every sequence of `PoTokenManager` constructions the
first installs its DOM globals, and all later constructions leave the
process state — and hence the installed globals — unchanged. -/
theorem dom_installed_once (d : Nat) (ds : List Nat) :
    constructMany initialProcessState (d :: ds) =
      { hasDom := true, domGlobals := some d } := by
  have hfix : ∀ (s : ProcessState), s.hasDom = true →
      ∀ (l : List Nat), constructMany s l = s := by
    intro s hs l
    induction l with
    | nil => rfl
    | cons x xs ih =>
        unfold constructMany
        rw [show constructPoTokenManager s x = s by
              simp [constructPoTokenManager, hs]]
        exact ih
  unfold constructMany
  rw [show constructPoTokenManager initialProcessState d =
        { hasDom := true, domGlobals := some d } from rfl]
  exact hfix _ rfl ds

/-- The context-resolved refresh propagates the pipeline's fallback
counter unchanged. -/
theorem refreshWithCtx_fb (env : Env) (v : String) (vid : Option String)
    (cache : Cache) (ctx : SessionContext) :
    (refreshWithCtx env v vid cache ctx).fallbackRuns =
      (generateTokenMinter env cache (some ctx)).fallbackRuns := by
  unfold refreshWithCtx
  split
  · rfl
  next tm heq =>
    obtain ⟨res, hres⟩ := mintPhase_shape env v vid tm
      (generateTokenMinter env cache (some ctx)).cache 1
      (generateTokenMinter env cache (some ctx)).fallbackRuns
    rw [hres]

/-- A failed refresh pipeline makes the whole refresh branch fail with
the same error. -/
theorem refreshWithCtx_error (env : Env) (v : String) (vid : Option String)
    (cache : Cache) (ctx : SessionContext) (e : String)
    (h : (generateTokenMinter env cache (some ctx)).result = Except.error e) :
    (refreshWithCtx env v vid cache ctx).result = Except.error e := by
  unfold refreshWithCtx
  split
  next e2 heq =>
    rw [h] at heq
    injection heq with h4
    rw [h4]
  next tm heq =>
    rw [h] at heq
    simp at heq

/-- A successful refresh pipeline hands its fresh minter to the minting
phase. -/
theorem refreshWithCtx_ok (env : Env) (v : String) (vid : Option String)
    (cache : Cache) (ctx : SessionContext) (tm : TokenMinter)
    (h : (generateTokenMinter env cache (some ctx)).result = Except.ok tm) :
    (refreshWithCtx env v vid cache ctx).result =
      (mintPhase env v vid tm (generateTokenMinter env cache (some ctx)).cache
        1 (generateTokenMinter env cache (some ctx)).fallbackRuns).result := by
  unfold refreshWithCtx
  split
  next e heq =>
    rw [h] at heq
    simp at heq
  next tm2 heq =>
    rw [h] at heq
    injection heq with h4
    rw [h4]

/-- Claim C4: for every refresh-triggering call in which the primary
attestation path fails for any reason, the secondary self-contained
challenge routine is invoked (fallback count one); if the fallback
returns a challenge and the rest of the pipeline is healthy,
`generatePoToken` still succeeds end-to-end; if the fallback returns
nothing the call fails with the `"Could not get Botguard challenge"`
error, and if the fallback itself rejects the call fails with that
rejection. -/
theorem challenge_fallback_transparency (env : Env) (cache : Cache)
    (vd : Option String) (s : String) (ctx : SessionContext) (e : String)
    (hcache : mapGet cache "default" = none)
    (hvd : resolveVisitorData env vd = Except.ok s)
    (hctx : env.innertubeCtx = Except.ok ctx)
    (hprim : primaryPath env (some ctx) = Except.error e) :
    (generatePoToken env cache vd none).fallbackRuns = 1 ∧
    (env.fallbackChallenge = Except.ok none →
      (generatePoToken env cache vd none).result =
        Except.error "Could not get Botguard challenge") ∧
    (∀ e2, env.fallbackChallenge = Except.error e2 →
      (generatePoToken env cache vd none).result = Except.error e2) ∧
    (∀ dc js b r tok mid vtok,
      env.fallbackChallenge = Except.ok (some dc) →
      dc.interpreterJavascript = some js → js ≠ "" →
      env.runInterpreter = Except.ok () →
      env.createClient = Except.ok () →
      env.snapshot = Except.ok b →
      env.generateIT = Except.ok r →
      r.integrityToken = some tok → tok ≠ "" →
      env.createMinter = Except.ok mid →
      env.mint mid s = Except.ok vtok → vtok ≠ "" →
      ∃ data, (generatePoToken env cache vd none).result = Except.ok data) := by
  have heq : generatePoToken env cache vd none =
      refreshWithCtx env s none cache ctx := by
    unfold generatePoToken
    rw [hvd, hcache]
    exact refreshPhase_ok_ctx env s none cache ctx hctx
  refine ⟨?_, ?_, ?_, ?_⟩
  · rw [heq, refreshWithCtx_fb, generateTokenMinter_fb]
    unfold getDescrambledChallenge
    rw [hprim]
    cases env.fallbackChallenge with
    | error e2 => rfl
    | ok o => cases o with
      | none => rfl
      | some dc => rfl
  · intro hfb
    have h1 : (getDescrambledChallenge env (some ctx)).1 =
        Except.error "Could not get Botguard challenge" := by
      unfold getDescrambledChallenge
      rw [hprim, hfb]
    have h2 : (generateTokenMinter env cache (some ctx)).result =
        Except.error "Could not get Botguard challenge" := by
      unfold generateTokenMinter buildMinterFromChallenge
      rw [h1]
    rw [heq]
    exact refreshWithCtx_error env s none cache ctx _ h2
  · intro e2 hfb
    have h1 : (getDescrambledChallenge env (some ctx)).1 = Except.error e2 := by
      unfold getDescrambledChallenge
      rw [hprim, hfb]
    have h2 : (generateTokenMinter env cache (some ctx)).result =
        Except.error e2 := by
      unfold generateTokenMinter buildMinterFromChallenge
      rw [h1]
    rw [heq]
    exact refreshWithCtx_error env s none cache ctx _ h2
  · intro dc js b r tok mid vtok hfb hjs hjs2 hri hcc hb hit htok htok2 hmid
      hmint hvtok
    have h1 : (getDescrambledChallenge env (some ctx)).1 = Except.ok dc := by
      unfold getDescrambledChallenge
      rw [hprim, hfb]
    have h2 : (generateTokenMinter env cache (some ctx)).result =
        Except.ok { expiry := env.nowMinterBuild + r.estimatedTtlSecs * 1000,
                    integrityToken := tok, minterId := mid } := by
      unfold generateTokenMinter buildMinterFromChallenge
      rw [h1]
      simp [hjs, hjs2, hri, hcc, hb, hit, htok, htok2, hmid]
    rw [heq]
    rw [refreshWithCtx_ok env s none cache ctx _ h2]
    unfold mintPhase
    simp [hmint, hvtok]

/-- Witness for C4: with a rejecting primary fetch and a healthy fallback
challenge, the fallback runs once and the call still succeeds. -/
theorem challenge_fallback_transparency_witness :
    primaryPath envFallbackOk (some ctxW) = Except.error "att get failed" ∧
    envFallbackOk.fallbackChallenge = Except.ok (some challengeFB) ∧
    (generatePoToken envFallbackOk [] (some "v") none).fallbackRuns = 1 ∧
    ∃ data, (generatePoToken envFallbackOk [] (some "v") none).result =
      Except.ok data :=
  ⟨by decide, by decide,
   (challenge_fallback_transparency envFallbackOk [] (some "v") "v" ctxW
      "att get failed" (by decide) (by decide) (by decide) (by decide)).1,
   (challenge_fallback_transparency envFallbackOk [] (some "v") "v" ctxW
      "att get failed" (by decide) (by decide) (by decide) (by decide)).2.2.2
      challengeFB "fb-src" "bg-response" integrityRespW "itok" 7 "pot-v"
      (by decide) (by decide) (by decide) (by decide) (by decide) (by decide)
      (by decide) (by decide) (by decide) (by decide) (by decide) (by decide)⟩
